import Mathlib

/-!
Shallow embedding of the otter bytecode-cache layer found in
`crates/otter-jsc-sys/src/bytecode_cache.cpp` (the full backend),
`crates/otter-jsc-sys/src/bytecode_cache_stub.c` (the stub backend) and
`crates/otter-jsc-sys/src/heap_stats_stub.c` (the stub heap-telemetry call).

The engine (JavaScriptCore) and the file system are external collaborators;
they are modelled by an explicit environment `Env` of oracles: context
validity (`toJS` returning a non-null global object), whether a path can be
opened in truncate mode, the outcome of `JSC::generateProgramBytecode` /
`JSC::generateModuleBytecode`, and the outcome of `JSC::evaluate`.

Each entry point is translated branch for branch from the C source.  A call
returns the C return value, the (optionally written) result record — partial
writes to the caller-supplied record are modelled via record updates, so a
field the C code does not assign keeps the caller's prior value — an event
trace recording lock, engine and file interaction in program order, and the
resulting file-system state.
-/

namespace Otter

/-- Compilation unit kind: plain script vs ES module source classification. -/
inductive UnitKind where
  | script
  | module
  deriving DecidableEq

/-- Observable interactions performed by one call, in program order:
`lockAcquire`/`lockRelease` for `JSC::JSLockHolder` construction and
destruction, `engineCompile` for `JSC::generateProgramBytecode` /
`JSC::generateModuleBytecode` (tagged with the unit kind and the origin
label passed to the engine), `engineEvaluate` for `JSC::evaluate`, and
`fileOpen` for `FileSystem::openFile` in truncate mode. -/
inductive Event where
  | lockAcquire
  | lockRelease
  | engineCompile (kind : UnitKind) (originLabel : String)
  | engineEvaluate (originLabel : String)
  | fileOpen (path : String)
  deriving DecidableEq

/-- A file system: contents (byte list) of the file at a path, if any. -/
def FS : Type := String → Option (List Nat)

/-- Outcome of an engine compile-to-bytecode call
(`JSC::generateProgramBytecode` / `JSC::generateModuleBytecode`): either a
non-null `CachedBytecode` with no valid `BytecodeCacheError` (carrying the
artifact's byte size and the bytes streamed to the open file), or a valid
`BytecodeCacheError` with its message, or a null artifact with no valid
error. -/
inductive CompileOutcome where
  | ok (size : Nat) (written : List Nat)
  | err (msg : String) (written : List Nat)
  | noArtifact (written : List Nat)
  deriving DecidableEq

/-- Outcome of `JSC::evaluate`: normal completion, or an uncaught exception
whose value converts to the given string. -/
inductive EvalOutcome where
  | ok
  | exn (msg : String)
  deriving DecidableEq

/-- The external collaborators: engine and file-system oracles. -/
structure Env where
  validCtx : Nat → Bool
  openOK : String → Bool
  compileProgram : String → String → CompileOutcome
  compileModule : String → String → CompileOutcome
  evalSource : String → String → EvalOutcome

/-- Mirror of `struct OtterBytecodeResult`: `success`, the (nullable) `data`
pointer, `size`, and the NUL-terminated `error_message[256]` buffer read as
a string. -/
structure OtterBytecodeResult where
  success : Bool
  data : Option Nat
  size : Nat
  error_message : String
  deriving DecidableEq

/-- Mirror of `struct OtterJscHeapStats`: four unsigned counters. -/
structure OtterJscHeapStats where
  heap_size : Nat
  heap_capacity : Nat
  extra_memory : Nat
  array_buffer : Nat
  deriving DecidableEq

/-- Everything observable about one call: the C return value, the result
record as left in the caller's `out` parameter (`none` when `out` was null,
i.e. nothing was written), the interaction trace, and the file system after
the call. -/
structure CallResult where
  ret : Bool
  out : Option OtterBytecodeResult
  trace : List Event
  fs : FS

/-- Writing a message into the 256-byte `error_message` buffer via
`snprintf`/`strncpy` keeps at most 255 characters plus the terminating NUL. -/
def boundedMsg (s : String) : String :=
  if s.length ≤ 255 then s else String.mk (s.data.take 255)

/-- Default origin label for script-kind calls (`"script.js"_s`). -/
def scriptDefaultLabel : String := "script.js"

/-- Default origin label for module-kind calls (`"module.js"_s`). -/
def moduleDefaultLabel : String := "module.js"

/-- Mirror of `filename ? WTF::String::fromUTF8(...) : dflt`: only a null
filename pointer is replaced by the default; a non-null (possibly empty)
filename is used verbatim. -/
def resolveLabel (dflt : String) : Option String → String
  | some f => f
  | none => dflt

/-- Mirror of the shared null-argument check block: when any required pointer
is null, the call writes `success=false` and `"Invalid arguments"` into the
result record (when the record pointer itself is non-null; all other fields
keep their prior values), performs no engine or file interaction, and
returns false. -/
def invalidArgsResult (out : Option OtterBytecodeResult) (fs : FS) : CallResult :=
  { ret := false
    out := out.map (fun o =>
      { o with success := false, error_message := boundedMsg "Invalid arguments" })
    trace := []
    fs := fs }

/-- Directive message of the file-less generation entry point. -/
def fileHandleDirectiveMsg : String :=
  "Bytecode generation requires file handle - use otter_generate_program_bytecode_to_file instead"

/-- Full backend `otter_generate_program_bytecode`: after argument and
context validation it unconditionally fails with a directive to use the
file-based variant; the engine compiler is never invoked. -/
def otter_generate_program_bytecode (env : Env) (fs : FS)
    (ctx : Option Nat) (source : Option String) (filename : Option String)
    (out : Option OtterBytecodeResult) : CallResult :=
  match ctx, source, out with
  | some c, some _src, some o =>
    if env.validCtx c then
      { ret := false
        out := some { o with success := false
                             error_message := boundedMsg fileHandleDirectiveMsg }
        trace := []
        fs := fs }
    else
      { ret := false
        out := some { o with success := false, error_message := boundedMsg "Invalid context" }
        trace := []
        fs := fs }
  | _, _, _ => invalidArgsResult out fs

/-- Full backend `otter_generate_program_bytecode_to_file`: validate
arguments and context, take the `JSLockHolder`, resolve the origin label,
open the destination in truncate mode (failure there reports an I/O error
naming the path and leaves the file system untouched), then invoke
`JSC::generateProgramBytecode` streaming to the open handle.  The lock is
released on every exit path after its acquisition (RAII). -/
def otter_generate_program_bytecode_to_file (env : Env) (fs : FS)
    (ctx : Option Nat) (source : Option String) (filename : Option String)
    (output_path : Option String) (out : Option OtterBytecodeResult) : CallResult :=
  match ctx, source, output_path, out with
  | some c, some src, some path, some o =>
    if env.validCtx c then
      if env.openOK path then
        match env.compileProgram src (resolveLabel scriptDefaultLabel filename) with
        | CompileOutcome.ok n written =>
          { ret := true
            out := some { success := true, data := none, size := n, error_message := "" }
            trace := [Event.lockAcquire, Event.fileOpen path,
                      Event.engineCompile UnitKind.script (resolveLabel scriptDefaultLabel filename), Event.lockRelease]
            fs := fun q => if q = path then some written else fs q }
        | CompileOutcome.err msg written =>
          { ret := false
            out := some { o with success := false, error_message := boundedMsg msg }
            trace := [Event.lockAcquire, Event.fileOpen path,
                      Event.engineCompile UnitKind.script (resolveLabel scriptDefaultLabel filename), Event.lockRelease]
            fs := fun q => if q = path then some written else fs q }
        | CompileOutcome.noArtifact written =>
          { ret := false
            out := some { o with success := false
                                 error_message := boundedMsg "Bytecode generation failed" }
            trace := [Event.lockAcquire, Event.fileOpen path,
                      Event.engineCompile UnitKind.script (resolveLabel scriptDefaultLabel filename), Event.lockRelease]
            fs := fun q => if q = path then some written else fs q }
      else
        { ret := false
          out := some { o with success := false
                               error_message := boundedMsg ("Failed to open output file: " ++ path) }
          trace := [Event.lockAcquire, Event.fileOpen path, Event.lockRelease]
          fs := fs }
    else
      { ret := false
        out := some { o with success := false, error_message := boundedMsg "Invalid context" }
        trace := []
        fs := fs }
  | _, _, _, _ => invalidArgsResult out fs

/-- Full backend `otter_generate_module_bytecode_to_file`: identical to the
program variant except for the module source classification, the
`"module.js"` default label, `JSC::generateModuleBytecode`, and the generic
failure message. -/
def otter_generate_module_bytecode_to_file (env : Env) (fs : FS)
    (ctx : Option Nat) (source : Option String) (filename : Option String)
    (output_path : Option String) (out : Option OtterBytecodeResult) : CallResult :=
  match ctx, source, output_path, out with
  | some c, some src, some path, some o =>
    if env.validCtx c then
      if env.openOK path then
        match env.compileModule src (resolveLabel moduleDefaultLabel filename) with
        | CompileOutcome.ok n written =>
          { ret := true
            out := some { success := true, data := none, size := n, error_message := "" }
            trace := [Event.lockAcquire, Event.fileOpen path,
                      Event.engineCompile UnitKind.module (resolveLabel moduleDefaultLabel filename), Event.lockRelease]
            fs := fun q => if q = path then some written else fs q }
        | CompileOutcome.err msg written =>
          { ret := false
            out := some { o with success := false, error_message := boundedMsg msg }
            trace := [Event.lockAcquire, Event.fileOpen path,
                      Event.engineCompile UnitKind.module (resolveLabel moduleDefaultLabel filename), Event.lockRelease]
            fs := fun q => if q = path then some written else fs q }
        | CompileOutcome.noArtifact written =>
          { ret := false
            out := some { o with success := false
                                 error_message := boundedMsg "Module bytecode generation failed" }
            trace := [Event.lockAcquire, Event.fileOpen path,
                      Event.engineCompile UnitKind.module (resolveLabel moduleDefaultLabel filename), Event.lockRelease]
            fs := fun q => if q = path then some written else fs q }
      else
        { ret := false
          out := some { o with success := false
                               error_message := boundedMsg ("Failed to open output file: " ++ path) }
          trace := [Event.lockAcquire, Event.fileOpen path, Event.lockRelease]
          fs := fs }
    else
      { ret := false
        out := some { o with success := false, error_message := boundedMsg "Invalid context" }
        trace := []
        fs := fs }
  | _, _, _, _ => invalidArgsResult out fs

/-- Full backend `otter_evaluate_with_cache`: validates arguments (the
bytecode path must be non-null) and the context, builds the source with the
script-kind default label, then calls `JSC::evaluate` on the source
directly.  The bytecode path string is computed but never used and the file
system is never read; no `JSLockHolder` is constructed by this entry
point. -/
def otter_evaluate_with_cache (env : Env) (fs : FS)
    (ctx : Option Nat) (source : Option String) (filename : Option String)
    (bytecode_path : Option String) (out : Option OtterBytecodeResult) : CallResult :=
  match ctx, source, bytecode_path, out with
  | some c, some src, some _path, some o =>
    if env.validCtx c then
      match env.evalSource src (resolveLabel scriptDefaultLabel filename) with
      | EvalOutcome.ok =>
        { ret := true
          out := some { success := true, data := none, size := 0, error_message := "" }
          trace := [Event.engineEvaluate (resolveLabel scriptDefaultLabel filename)]
          fs := fs }
      | EvalOutcome.exn msg =>
        { ret := false
          out := some { o with success := false, error_message := boundedMsg msg }
          trace := [Event.engineEvaluate (resolveLabel scriptDefaultLabel filename)]
          fs := fs }
    else
      { ret := false
        out := some { o with success := false, error_message := boundedMsg "Invalid context" }
        trace := []
        fs := fs }
  | _, _, _, _ => invalidArgsResult out fs

/-- Fixed message of the stub generation entry points. -/
def stubGenerationMsg : String := "Bytecode generation not available with system JSC"

/-- Fixed message of the stub evaluation entry point. -/
def stubEvaluationMsg : String := "Bytecode cache evaluation not available with system JSC"

/-- Shared body of the stub bytecode entry points: ignore every input, write
a complete failure record (`success=false`, null data, zero size, the fixed
message) when the result pointer is non-null, touch neither engine nor file
system, return false. -/
def stubFill (msg : String) (out : Option OtterBytecodeResult) (fs : FS) : CallResult :=
  { ret := false
    out := out.map (fun _ =>
      { success := false, data := none, size := 0, error_message := boundedMsg msg })
    trace := []
    fs := fs }

namespace Stub

/-- Stub backend `otter_generate_program_bytecode`. -/
def otter_generate_program_bytecode (fs : FS) (ctx : Option Nat)
    (source filename : Option String) (out : Option OtterBytecodeResult) : CallResult :=
  stubFill stubGenerationMsg out fs

/-- Stub backend `otter_generate_program_bytecode_to_file`. -/
def otter_generate_program_bytecode_to_file (fs : FS) (ctx : Option Nat)
    (source filename output_path : Option String)
    (out : Option OtterBytecodeResult) : CallResult :=
  stubFill stubGenerationMsg out fs

/-- Stub backend `otter_generate_module_bytecode_to_file`. -/
def otter_generate_module_bytecode_to_file (fs : FS) (ctx : Option Nat)
    (source filename output_path : Option String)
    (out : Option OtterBytecodeResult) : CallResult :=
  stubFill stubGenerationMsg out fs

/-- Stub backend `otter_evaluate_with_cache`. -/
def otter_evaluate_with_cache (fs : FS) (ctx : Option Nat)
    (source filename bytecode_path : Option String)
    (out : Option OtterBytecodeResult) : CallResult :=
  stubFill stubEvaluationMsg out fs

/-- Stub `otter_jsc_heap_stats` (`heap_stats_stub.c`): with a null output
pointer it returns false writing nothing; otherwise it writes all four
counters as zero and still returns false.  It never touches the engine. -/
def otter_jsc_heap_stats (ctx : Option Nat) (out : Option OtterJscHeapStats) :
    Bool × Option OtterJscHeapStats × List Event :=
  match out with
  | none => (false, none, [])
  | some _ => (false, some ⟨0, 0, 0, 0⟩, [])

end Stub

/-- Whether an event is an engine interaction (compile or evaluate). -/
def Event.isEngine : Event → Bool
  | Event.engineCompile _ _ => true
  | Event.engineEvaluate _ => true
  | _ => false

/-- Whether an event is a lock acquisition or release. -/
def Event.isLock : Event → Bool
  | Event.lockAcquire => true
  | Event.lockRelease => true
  | _ => false

/-- Scan a trace keeping the current lock depth; every engine event must
occur at positive depth. -/
def engineLockedFrom : Nat → List Event → Bool
  | _, [] => true
  | d, Event.lockAcquire :: tr => engineLockedFrom (d + 1) tr
  | d, Event.lockRelease :: tr => engineLockedFrom (d - 1) tr
  | d, e :: tr => (!e.isEngine || decide (0 < d)) && engineLockedFrom d tr

/-- Every engine interaction in the trace happens while the lock is held. -/
def engineLocked (tr : List Event) : Bool := engineLockedFrom 0 tr

/-- Scan a trace keeping the lock depth; a release needs positive depth and
the trace must end at depth zero (every acquisition is released). -/
def lockBalancedFrom : Nat → List Event → Bool
  | d, [] => d == 0
  | d, Event.lockAcquire :: tr => lockBalancedFrom (d + 1) tr
  | d, Event.lockRelease :: tr => decide (0 < d) && lockBalancedFrom (d - 1) tr
  | d, _ :: tr => lockBalancedFrom d tr

/-- The trace acquires and releases the lock in balanced fashion, ending
with the lock free. -/
def lockBalanced (tr : List Event) : Bool := lockBalancedFrom 0 tr

/-- The trace contains no lock acquisition or release at all. -/
def noLockEvents (tr : List Event) : Bool := tr.all (fun e => !e.isLock)

/-- Every engine event in the trace carries the fixed default origin label
of its unit kind. -/
def originDefaulted : Event → Bool
  | Event.engineCompile UnitKind.script l => l == scriptDefaultLabel
  | Event.engineCompile UnitKind.module l => l == moduleDefaultLabel
  | Event.engineEvaluate l => l == scriptDefaultLabel
  | _ => true

/-- The empty file system, used for concrete evaluations. -/
def fs0 : FS := fun _ => none

/-- A blank caller-supplied result record. -/
def out0 : OtterBytecodeResult :=
  { success := false, data := none, size := 0, error_message := "" }

/-- A caller-supplied result record with stale `success`/`size` values, used
to observe which fields a call actually writes. -/
def out5 : OtterBytecodeResult :=
  { success := true, data := none, size := 5, error_message := "" }

/-- A concrete environment in which every operation succeeds. -/
def envOK : Env :=
  { validCtx := fun _ => true
    openOK := fun _ => true
    compileProgram := fun _ _ => CompileOutcome.ok 7 [1, 2, 3]
    compileModule := fun _ _ => CompileOutcome.ok 9 [4]
    evalSource := fun _ _ => EvalOutcome.ok }

/-- A concrete environment in which no path can be opened. -/
def envOpenFail : Env :=
  { envOK with openOK := fun _ => false }

/-- Claim C1 (code-bug evidence): the full backend's failure paths write
only `success` and `error_message`, never `size`.  With a destination that
cannot be opened and a caller record whose stale `size` is `5`, the call
fails yet leaves `size = 5`, contradicting the documented invariant that a
failed result carries `size == 0`. -/
theorem C1_failure_size_not_zeroed :
    (otter_generate_program_bytecode_to_file envOpenFail fs0 (some 0) (some "x") none
        (some "p") (some out5)).out
      = some { success := false, data := none, size := 5,
               error_message := "Failed to open output file: p" } := by
  decide

/-- Claim C2: `otter_evaluate_with_cache` compiles and executes the supplied
source directly: its return value, result record and trace are identical for
any two non-null bytecode paths and any two file-system states, and the
file system is left untouched — a missing cache file can never by itself
make the call fail. -/
theorem C2_evaluate_independent_of_cache (env : Env) (fs1 fs2 : FS) (p1 p2 : String)
    (ctx : Option Nat) (source filename : Option String)
    (out : Option OtterBytecodeResult) :
    (otter_evaluate_with_cache env fs1 ctx source filename (some p1) out).ret
      = (otter_evaluate_with_cache env fs2 ctx source filename (some p2) out).ret
  ∧ (otter_evaluate_with_cache env fs1 ctx source filename (some p1) out).out
      = (otter_evaluate_with_cache env fs2 ctx source filename (some p2) out).out
  ∧ (otter_evaluate_with_cache env fs1 ctx source filename (some p1) out).trace
      = (otter_evaluate_with_cache env fs2 ctx source filename (some p2) out).trace
  ∧ (otter_evaluate_with_cache env fs1 ctx source filename (some p1) out).fs = fs1 := by
  rcases ctx with _ | c <;> rcases source with _ | src <;> rcases out with _ | o <;>
    try exact ⟨rfl, rfl, rfl, rfl⟩
  unfold otter_evaluate_with_cache
  by_cases hv : env.validCtx c = true
  · simp only [hv, if_true]
    cases env.evalSource src (resolveLabel scriptDefaultLabel filename) <;>
      exact ⟨rfl, rfl, rfl, rfl⟩
  · simp only [hv, if_false]
    exact ⟨rfl, rfl, rfl, rfl⟩

/-- Claim C3 (counterexample): the hydration entry point performs its engine
evaluation with the lock depth at zero — it never constructs a
`JSLockHolder`, so `engineLocked` fails on its trace. -/
theorem C3_hydration_unlocked_counterexample :
    (otter_evaluate_with_cache envOK fs0 (some 0) (some "x") none (some "p")
        (some out0)).trace
      = [Event.engineEvaluate "script.js"]
  ∧ engineLocked (otter_evaluate_with_cache envOK fs0 (some 0) (some "x") none (some "p")
        (some out0)).trace = false :=
  ⟨rfl, by decide⟩

/-- Claim C3 (amended): the two generation entry points hold the engine's
execution lock, acquired and released in balanced fashion on every exit
path, around all of their engine interaction; the hydration entry point
performs no lock operation of its own at all (it delegates locking to the
engine's evaluate call). -/
theorem C3_lock_discipline (env : Env) (fs : FS) (ctx : Option Nat)
    (source filename output_path bytecode_path : Option String)
    (out : Option OtterBytecodeResult) :
    (engineLocked (otter_generate_program_bytecode_to_file env fs ctx source filename
          output_path out).trace = true
      ∧ lockBalanced (otter_generate_program_bytecode_to_file env fs ctx source filename
          output_path out).trace = true)
  ∧ (engineLocked (otter_generate_module_bytecode_to_file env fs ctx source filename
          output_path out).trace = true
      ∧ lockBalanced (otter_generate_module_bytecode_to_file env fs ctx source filename
          output_path out).trace = true)
  ∧ noLockEvents (otter_evaluate_with_cache env fs ctx source filename bytecode_path
        out).trace = true := by
  refine ⟨⟨?_, ?_⟩, ⟨?_, ?_⟩, ?_⟩
  · unfold otter_generate_program_bytecode_to_file
    split <;> (try rfl) <;> split <;> (try rfl) <;> split <;> (try rfl) <;> split <;> rfl
  · unfold otter_generate_program_bytecode_to_file
    split <;> (try rfl) <;> split <;> (try rfl) <;> split <;> (try rfl) <;> split <;> rfl
  · unfold otter_generate_module_bytecode_to_file
    split <;> (try rfl) <;> split <;> (try rfl) <;> split <;> (try rfl) <;> split <;> rfl
  · unfold otter_generate_module_bytecode_to_file
    split <;> (try rfl) <;> split <;> (try rfl) <;> split <;> (try rfl) <;> split <;> rfl
  · unfold otter_evaluate_with_cache
    split <;> (try rfl) <;> split <;> (try rfl) <;> split <;> rfl

/-- Claim C4: every stub-backend entry point ignores its inputs, returns
false immediately, performs no engine or file interaction, and (when the
result pointer is non-null) writes a complete failure record with null data,
zero size and the fixed capability-unavailable message; the stub heap-stats
call writes all four counters as zero and returns false. -/
theorem C4_stub_backend (fs : FS) (ctx : Option Nat)
    (source filename output_path bytecode_path : Option String)
    (out : Option OtterBytecodeResult) (hstats : Option OtterJscHeapStats) :
    Stub.otter_generate_program_bytecode fs ctx source filename out
      = { ret := false
          out := out.map (fun _ =>
            { success := false, data := none, size := 0, error_message := stubGenerationMsg })
          trace := []
          fs := fs }
  ∧ Stub.otter_generate_program_bytecode_to_file fs ctx source filename output_path out
      = { ret := false
          out := out.map (fun _ =>
            { success := false, data := none, size := 0, error_message := stubGenerationMsg })
          trace := []
          fs := fs }
  ∧ Stub.otter_generate_module_bytecode_to_file fs ctx source filename output_path out
      = { ret := false
          out := out.map (fun _ =>
            { success := false, data := none, size := 0, error_message := stubGenerationMsg })
          trace := []
          fs := fs }
  ∧ Stub.otter_evaluate_with_cache fs ctx source filename bytecode_path out
      = { ret := false
          out := out.map (fun _ =>
            { success := false, data := none, size := 0, error_message := stubEvaluationMsg })
          trace := []
          fs := fs }
  ∧ Stub.otter_jsc_heap_stats ctx hstats
      = (false, hstats.map (fun _ => { heap_size := 0, heap_capacity := 0,
                                       extra_memory := 0, array_buffer := 0 }), []) := by
  refine ⟨?_, ?_, ?_, ?_, ?_⟩ <;> cases out <;> cases hstats <;> rfl

/-- Claim C5: for the full backend, whenever a required pointer (context,
source, or the path for the path-taking entry points) is null, every entry
point returns false immediately with the non-empty "Invalid arguments"
message written over the caller's record (other fields untouched), performs
no engine or file interaction, and writes nothing at all when the result
pointer itself is null. -/
theorem C5_null_arguments (env : Env) (fs : FS) (ctx : Option Nat)
    (source filename path : Option String) (out : Option OtterBytecodeResult)
    (h : ctx = none ∨ source = none ∨ path = none) :
    otter_generate_program_bytecode_to_file env fs ctx source filename path out
      = invalidArgsResult out fs
  ∧ otter_generate_module_bytecode_to_file env fs ctx source filename path out
      = invalidArgsResult out fs
  ∧ otter_evaluate_with_cache env fs ctx source filename path out
      = invalidArgsResult out fs
  ∧ ((ctx = none ∨ source = none) →
      otter_generate_program_bytecode env fs ctx source filename out
        = invalidArgsResult out fs)
  ∧ (invalidArgsResult out fs).ret = false
  ∧ (invalidArgsResult out fs).trace = []
  ∧ (invalidArgsResult out fs).fs = fs
  ∧ (out = none → (invalidArgsResult out fs).out = none)
  ∧ (∀ o, out = some o →
      (invalidArgsResult out fs).out
        = some { o with success := false, error_message := "Invalid arguments" })
  ∧ boundedMsg "Invalid arguments" ≠ "" := by
  refine ⟨?_, ?_, ?_, ?_, rfl, rfl, rfl, ?_, ?_, by decide⟩
  · rcases h with rfl | rfl | rfl
    · rcases source with _ | s <;> rcases path with _ | p <;> rfl
    · rcases ctx with _ | c <;> rcases path with _ | p <;> rfl
    · rcases ctx with _ | c <;> rcases source with _ | s <;> rfl
  · rcases h with rfl | rfl | rfl
    · rcases source with _ | s <;> rcases path with _ | p <;> rfl
    · rcases ctx with _ | c <;> rcases path with _ | p <;> rfl
    · rcases ctx with _ | c <;> rcases source with _ | s <;> rfl
  · rcases h with rfl | rfl | rfl
    · rcases source with _ | s <;> rcases path with _ | p <;> rfl
    · rcases ctx with _ | c <;> rcases path with _ | p <;> rfl
    · rcases ctx with _ | c <;> rcases source with _ | s <;> rfl
  · rintro (rfl | rfl)
    · rcases source with _ | s <;> rfl
    · rcases ctx with _ | c <;> rfl
  · rintro rfl; rfl
  · rintro o rfl; rfl

/-- Claim C5 witness: a concrete null-context call to the file-based and
file-less generation entry points lands on the invalid-arguments result. -/
theorem C5_null_arguments_witness :
    otter_generate_program_bytecode_to_file envOK fs0 none (some "s") none (some "p")
        (some out0)
      = invalidArgsResult (some out0) fs0
  ∧ otter_generate_program_bytecode envOK fs0 none (some "s") none (some out0)
      = invalidArgsResult (some out0) fs0
  ∧ (invalidArgsResult (some out0) fs0).out
      = some { out0 with success := false, error_message := "Invalid arguments" } := by
  have h := C5_null_arguments envOK fs0 none (some "s") none (some "p") (some out0)
    (Or.inl rfl)
  exact ⟨h.1, h.2.2.2.1 (Or.inl rfl), h.2.2.2.2.2.2.2.2.1 out0 rfl⟩

/-- Claim C6: for every valid non-null context and non-null source, the
file-less entry point fails with the directive message pointing at the
file-based variant, performs no engine or file interaction, and leaves the
file system untouched. -/
theorem C6_fileless_generation_unsupported (env : Env) (fs : FS) (c : Nat)
    (src : String) (filename : Option String) (o : OtterBytecodeResult)
    (hc : env.validCtx c = true) :
    otter_generate_program_bytecode env fs (some c) (some src) filename (some o)
      = { ret := false
          out := some { o with success := false, error_message := fileHandleDirectiveMsg }
          trace := []
          fs := fs } := by
  simp only [otter_generate_program_bytecode]
  rw [if_pos hc]
  rfl

/-- Claim C6 witness: concrete valid-input call to the file-less entry
point. -/
theorem C6_fileless_witness :
    otter_generate_program_bytecode envOK fs0 (some 0) (some "s") none (some out0)
      = { ret := false
          out := some { out0 with success := false, error_message := fileHandleDirectiveMsg }
          trace := []
          fs := fs0 } :=
  C6_fileless_generation_unsupported envOK fs0 0 "s" none out0 rfl

/-- Claim C7: when the destination path cannot be opened in truncate mode,
both generation entry points fail with the I/O message naming the output
path, the engine compiler is never invoked (the trace holds no engine
event), and the file system is completely unchanged. -/
theorem C7_open_failure (env : Env) (fs : FS) (c : Nat) (src : String)
    (filename : Option String) (path : String) (o : OtterBytecodeResult)
    (hc : env.validCtx c = true) (hopen : env.openOK path = false) :
    otter_generate_program_bytecode_to_file env fs (some c) (some src) filename
        (some path) (some o)
      = { ret := false
          out := some { o with success := false
                               error_message := boundedMsg ("Failed to open output file: " ++ path) }
          trace := [Event.lockAcquire, Event.fileOpen path, Event.lockRelease]
          fs := fs }
  ∧ otter_generate_module_bytecode_to_file env fs (some c) (some src) filename
        (some path) (some o)
      = { ret := false
          out := some { o with success := false
                               error_message := boundedMsg ("Failed to open output file: " ++ path) }
          trace := [Event.lockAcquire, Event.fileOpen path, Event.lockRelease]
          fs := fs } := by
  constructor
  · simp only [otter_generate_program_bytecode_to_file]
    rw [if_pos hc, if_neg (by simp [hopen])]
  · simp only [otter_generate_module_bytecode_to_file]
    rw [if_pos hc, if_neg (by simp [hopen])]

/-- Claim C7 witness: a concrete call against an environment in which no
path opens. -/
theorem C7_open_failure_witness :
    otter_generate_program_bytecode_to_file envOpenFail fs0 (some 0) (some "x") none
        (some "p") (some out0)
      = { ret := false
          out := some { out0 with success := false
                                  error_message := boundedMsg ("Failed to open output file: " ++ "p") }
          trace := [Event.lockAcquire, Event.fileOpen "p", Event.lockRelease]
          fs := fs0 }
  ∧ otter_generate_module_bytecode_to_file envOpenFail fs0 (some 0) (some "x") none
        (some "p") (some out0)
      = { ret := false
          out := some { out0 with success := false
                                  error_message := boundedMsg ("Failed to open output file: " ++ "p") }
          trace := [Event.lockAcquire, Event.fileOpen "p", Event.lockRelease]
          fs := fs0 } :=
  C7_open_failure envOpenFail fs0 0 "x" none "p" out0 rfl rfl

/-- Claim C8 (counterexample): with a non-null but empty filename, the
script-kind generation entry point passes the empty string — not
"script.js" — to the engine as origin label: the label is left blank. -/
theorem C8_empty_filename_counterexample :
    (otter_generate_program_bytecode_to_file envOK fs0 (some 0) (some "x")
        (some "") (some "p") (some out0)).trace
      = [Event.lockAcquire, Event.fileOpen "p",
         Event.engineCompile UnitKind.script "", Event.lockRelease]
  ∧ List.all (otter_generate_program_bytecode_to_file envOK fs0 (some 0) (some "x")
        (some "") (some "p") (some out0)).trace originDefaulted = false :=
  ⟨rfl, by decide⟩

/-- Claim C8 (amended): when the filename is null, every engine interaction
performed by the three engine-reaching entry points carries the fixed
default origin label of its unit kind — "script.js" for the script-kind
compile and for evaluation, "module.js" for the module-kind compile. -/
theorem C8_null_filename_defaults (env : Env) (fs : FS) (ctx : Option Nat)
    (source output_path bytecode_path : Option String)
    (out : Option OtterBytecodeResult) :
    List.all (otter_generate_program_bytecode_to_file env fs ctx source none
        output_path out).trace originDefaulted = true
  ∧ List.all (otter_generate_module_bytecode_to_file env fs ctx source none
        output_path out).trace originDefaulted = true
  ∧ List.all (otter_evaluate_with_cache env fs ctx source none bytecode_path
        out).trace originDefaulted = true := by
  refine ⟨?_, ?_, ?_⟩
  · unfold otter_generate_program_bytecode_to_file
    split <;> (try rfl) <;> split <;> (try rfl) <;> split <;> (try rfl) <;> split <;> rfl
  · unfold otter_generate_module_bytecode_to_file
    split <;> (try rfl) <;> split <;> (try rfl) <;> split <;> (try rfl) <;> split <;> rfl
  · unfold otter_evaluate_with_cache
    split <;> (try rfl) <;> split <;> (try rfl) <;> split <;> rfl

/-- Claim C9: for every entry point of both backends called with a non-null
result pointer, the returned boolean equals the `success` field written into
the result record. -/
theorem C9_return_matches_success (env : Env) (fs : FS) (ctx : Option Nat)
    (source filename output_path bytecode_path : Option String)
    (o : OtterBytecodeResult) :
    (otter_generate_program_bytecode env fs ctx source filename (some o)).out.map
        OtterBytecodeResult.success
      = some (otter_generate_program_bytecode env fs ctx source filename (some o)).ret
  ∧ (otter_generate_program_bytecode_to_file env fs ctx source filename output_path
        (some o)).out.map OtterBytecodeResult.success
      = some (otter_generate_program_bytecode_to_file env fs ctx source filename
          output_path (some o)).ret
  ∧ (otter_generate_module_bytecode_to_file env fs ctx source filename output_path
        (some o)).out.map OtterBytecodeResult.success
      = some (otter_generate_module_bytecode_to_file env fs ctx source filename
          output_path (some o)).ret
  ∧ (otter_evaluate_with_cache env fs ctx source filename bytecode_path
        (some o)).out.map OtterBytecodeResult.success
      = some (otter_evaluate_with_cache env fs ctx source filename bytecode_path
          (some o)).ret
  ∧ (Stub.otter_generate_program_bytecode fs ctx source filename (some o)).out.map
        OtterBytecodeResult.success
      = some (Stub.otter_generate_program_bytecode fs ctx source filename (some o)).ret
  ∧ (Stub.otter_generate_program_bytecode_to_file fs ctx source filename output_path
        (some o)).out.map OtterBytecodeResult.success
      = some (Stub.otter_generate_program_bytecode_to_file fs ctx source filename
          output_path (some o)).ret
  ∧ (Stub.otter_generate_module_bytecode_to_file fs ctx source filename output_path
        (some o)).out.map OtterBytecodeResult.success
      = some (Stub.otter_generate_module_bytecode_to_file fs ctx source filename
          output_path (some o)).ret
  ∧ (Stub.otter_evaluate_with_cache fs ctx source filename bytecode_path
        (some o)).out.map OtterBytecodeResult.success
      = some (Stub.otter_evaluate_with_cache fs ctx source filename bytecode_path
          (some o)).ret := by
  refine ⟨?_, ?_, ?_, ?_, rfl, rfl, rfl, rfl⟩
  · unfold otter_generate_program_bytecode
    split <;> (try rfl) <;> split <;> rfl
  · unfold otter_generate_program_bytecode_to_file
    split <;> (try rfl) <;> split <;> (try rfl) <;> split <;> (try rfl) <;> split <;> rfl
  · unfold otter_generate_module_bytecode_to_file
    split <;> (try rfl) <;> split <;> (try rfl) <;> split <;> (try rfl) <;> split <;> rfl
  · unfold otter_evaluate_with_cache
    split <;> (try rfl) <;> split <;> (try rfl) <;> split <;> rfl

/-- Claim C10: a successful `otter_evaluate_with_cache` always reports a
null data pointer and size zero, while a successful file-based generation
call reports the engine artifact byte size. -/
theorem C10_hydration_reports_no_artifact (env : Env) (fs : FS) (ctx : Option Nat)
    (source filename bytecode_path : Option String) (out : Option OtterBytecodeResult)
    (c : Nat) (src : String) (path : String) (o : OtterBytecodeResult)
    (n : Nat) (written : List Nat) :
    ((otter_evaluate_with_cache env fs ctx source filename bytecode_path out).ret = true →
      (otter_evaluate_with_cache env fs ctx source filename bytecode_path out).out
        = some { success := true, data := none, size := 0, error_message := "" })
  ∧ (env.validCtx c = true → env.openOK path = true →
      env.compileProgram src (resolveLabel scriptDefaultLabel filename)
        = CompileOutcome.ok n written →
      (otter_generate_program_bytecode_to_file env fs (some c) (some src) filename
          (some path) (some o)).out
        = some { success := true, data := none, size := n, error_message := "" }) := by
  constructor
  · unfold otter_evaluate_with_cache
    split
    · split
      · split
        · intro h2; rfl
        · intro h2; simp at h2
      · intro h2; simp at h2
    · intro h2; simp [invalidArgsResult] at h2
  · intro hc hopen hcompile
    simp only [otter_generate_program_bytecode_to_file]
    rw [if_pos hc, if_pos hopen, hcompile]

/-- Claim C10 witness: in a fully succeeding environment, hydration reports
size 0 and null data, generation reports the artifact size 7. -/
theorem C10_hydration_witness :
    ((otter_evaluate_with_cache envOK fs0 (some 0) (some "x") none (some "p")
        (some out0)).out
      = some { success := true, data := none, size := 0, error_message := "" })
  ∧ ((otter_generate_program_bytecode_to_file envOK fs0 (some 0) (some "x") none
        (some "p") (some out0)).out
      = some { success := true, data := none, size := 7, error_message := "" }) := by
  have h := C10_hydration_reports_no_artifact envOK fs0 (some 0) (some "x") none (some "p")
    (some out0) 0 "x" "p" out0 7 [1, 2, 3]
  exact ⟨h.1 rfl, h.2 rfl rfl rfl⟩

end Otter
